import Mathlib

/-!
Verification of the Instagram Video Transcriber backend
(src/app.py, src/notifications.py, src/config.py, src/models.py).

The Python code is shallowly embedded: pure string manipulation is
translated to executable Lean functions over `String` (whose model here is
a list of characters), and each Flask handler is translated to a function
from an explicit environment — recording the outcome of every external
call (yt-dlp, ffmpeg, Whisper, SMTP, Twilio, the database commit, the
scratch-directory removal) — to the handler's response together with its
observable effects (persisted rows, cleanup attempts).
-/

/-- Characters stripped by Python's `str.strip()` (the ASCII whitespace
set; non-ASCII Unicode whitespace does not occur in this code base). -/
def isPySpace (c : Char) : Bool :=
  c = ' ' || c = '\t' || c = '\n' || c = '\r' || c = '\x0b' || c = '\x0c'

def stripList (l : List Char) : List Char :=
  ((l.dropWhile isPySpace).reverse.dropWhile isPySpace).reverse

/-- Python `s.strip()`. -/
def pyStrip (s : String) : String := ⟨stripList s.data⟩

/-- Python `s.split('\n')` on the underlying character list:
`[] ↦ [[]]`, separators delimit possibly-empty pieces. -/
def splitNl : List Char → List (List Char)
  | [] => [[]]
  | c :: rest =>
    let r := splitNl rest
    if c = '\n' then [] :: r
    else
      match r with
      | [] => [[c]]
      | x :: xs => (c :: x) :: xs

/-- Python `s.split('\n')`. -/
def pySplit (s : String) : List String := (splitNl s.data).map (fun l => ⟨l⟩)

/-- Python `sep.join(lines)`. -/
def pyJoin (sep : String) : List String → String
  | [] => ""
  | [x] => x
  | x :: y :: xs => x ++ sep ++ pyJoin sep (y :: xs)

/-- Python `s.replace(pat, rep)`: leftmost, non-overlapping, one pass.
Fuel-based structural recursion; the fuel `s.length` is exhausted only
when the source is empty.  All call sites in this code base use a
non-empty pattern, which the guard also enforces. -/
def pyReplaceAux : Nat → List Char → List Char → List Char → List Char
  | 0, s, _, _ => s
  | _ + 1, [], _, _ => []
  | fuel + 1, c :: rest, pat, rep =>
    if pat ≠ [] ∧ pat.isPrefixOf (c :: rest) = true then
      rep ++ pyReplaceAux fuel ((c :: rest).drop pat.length) pat rep
    else
      c :: pyReplaceAux fuel rest pat rep

/-- Python `s.replace(pat, rep)`. -/
def pyReplace (s pat rep : String) : String :=
  ⟨pyReplaceAux s.data.length s.data pat.data rep.data⟩

/-- The Whisper transcription result as the code consumes it:
`result['segments']` (each segment reduced to its `text` field),
`result['text']`, and `result.get('language', ...)` where a missing
key is `none`. -/
structure TranscriptionResult where
  segments : List String
  text : String
  language : Option String
  deriving DecidableEq

/-- src/app.py:158-162 — the sentence-splitting fallback of
`format_transcript`: strip the aggregate text, break after each of
`". "`, `"? "`, `"! "`, split on newlines, strip and drop empties. -/
def sentenceFallback (text : String) : List String :=
  let t := pyStrip text
  let t := [". ", "? ", "! "].foldl (fun acc sep => pyReplace acc sep (sep ++ "\n")) t
  ((pySplit t).map pyStrip).filter (fun s => s ≠ "")

/-- src/app.py:151-156 — the loop building `lines` from the segments:
each segment's trimmed text, in order, skipping empty ones. -/
def segLines (r : TranscriptionResult) : List String :=
  (r.segments.map pyStrip).filter (fun s => s ≠ "")

/-- src/app.py:149-164 `format_transcript`: per-segment trimmed texts,
skipping empties; when none survive and the aggregate text is truthy,
the sentence fallback; joined with newlines. -/
def format_transcript (r : TranscriptionResult) : String :=
  let lines := segLines r
  let lines := if lines = [] ∧ r.text ≠ "" then sentenceFallback r.text else lines
  pyJoin "\n" lines

/-- Spec-side (for claim C9): the output built only from the segments'
trimmed texts, in segment order, skipping empty ones — the spec's
"primary path". -/
def segmentsOnlyFormat (r : TranscriptionResult) : String :=
  pyJoin "\n" (segLines r)

/-- Spec-side (for claim C1): the claimed line count — the number of
segments whose trimmed text is non-empty or, when no such segment
exists, the sentence-fallback line count. -/
def claimedLineCount (r : TranscriptionResult) : Nat :=
  if (segLines r).length ≠ 0 then (segLines r).length
  else (sentenceFallback r.text).length

/-! ## Data model (src/models.py) -/

/-- src/models.py `Transcript`: one persisted transcript row.  Nullable
string columns are modelled as `String` with `""` for NULL (the code only ever
tests them for Python truthiness). -/
structure TranscriptRow where
  id : Nat
  user_id : Nat
  instagram_url : String
  transcript_text : String
  language : String
  line_count : Nat
  sent_email : Bool := false
  sent_sms : Bool := false
  sent_whatsapp : Bool := false
  deriving DecidableEq

/-- src/models.py `User`: the fields the delivery handlers read. -/
structure UserRow where
  id : Nat
  email : String
  phone : String
  phone_carrier : String
  whatsapp : String
  deriving DecidableEq

/-- A JSON route response: `{success: true, ...payload}` or
`{success: false, error: msg}` with an HTTP status. -/
inductive ApiResult (α : Type) where
  | ok (payload : α)
  | fail (error : String) (status : Nat)
  deriving DecidableEq

def ApiResult.isOk : ApiResult α → Bool
  | .ok _ => true
  | .fail _ _ => false

/-! ## Notifications (src/notifications.py, src/config.py) -/

/-- src/config.py `SMS_GATEWAYS`: the fixed carrier → domain-suffix table. -/
def SMS_GATEWAYS : List (String × String) :=
  [("airtel", "@airtelmail.com"), ("jio", "@jio.com"), ("vi", "@vimail.com"),
   ("bsnl", "@bsnl.in"), ("att", "@txt.att.net"), ("tmobile", "@tmomail.net"),
   ("verizon", "@vtext.com")]

/-- Python `carrier in SMS_GATEWAYS` / `SMS_GATEWAYS[carrier]`. -/
def lookupGateway (carrier : String) : Option String :=
  (SMS_GATEWAYS.find? (fun kv => kv.1 = carrier)).map (fun kv => kv.2)

/-- Outcomes of the external notification services for one request:
whether SMTP credentials are configured and the SMTP transaction
succeeds, and likewise for Twilio.  Error strings stand for `str(e)` of
whatever the underlying library raised. -/
structure NotifyEnv where
  smtpConfigured : Bool
  smtpOk : Bool
  smtpErr : String
  twilioConfigured : Bool
  twilioOk : Bool
  twilioErr : String
  deriving DecidableEq

/-- An email actually handed to SMTP. -/
structure EmailSend where
  recipient : String
  subject : String
  body : String
  deriving DecidableEq

/-- src/notifications.py `send_email`: configuration check, then the SMTP
transaction; `.error` is the raised `NotificationError`'s message, `.ok`
records the message that was sent. -/
def send_email (env : NotifyEnv) (to_email subject body : String) :
    Except String EmailSend :=
  if env.smtpConfigured = false then
    .error "Email not configured. Please set SMTP_EMAIL and SMTP_PASSWORD in your .env file."
  else if env.smtpOk then .ok { recipient := to_email, subject := subject, body := body }
  else .error env.smtpErr

/-- Python `message[:1597] + "..."`. -/
def pyTruncate1600 (message : String) : String :=
  if message.length > 1600 then ⟨message.data.take 1597⟩ ++ "..." else message

/-- src/notifications.py:64-102 `send_sms`: carrier table check, digit
filtering, last-10 truncation, gateway address construction, length cap,
then delegation to the Email path. -/
def send_sms (env : NotifyEnv) (phone_number carrier message : String) :
    Except String EmailSend :=
  if lookupGateway carrier = none then
    .error ("Unsupported carrier: " ++ carrier ++ ". Supported carriers: " ++
      pyJoin ", " (SMS_GATEWAYS.map (fun kv => kv.1)))
  else
    let suffix := (lookupGateway carrier).getD ""
    let phone : List Char := phone_number.data.filter Char.isDigit
    let phone := if phone.length > 10 then phone.drop (phone.length - 10) else phone
    let gateway_email : String := ⟨phone⟩ ++ suffix
    let message := pyTruncate1600 message
    send_email env gateway_email "" message

/-- A WhatsApp message actually handed to Twilio. -/
structure WaSend where
  recipient : String
  body : String
  deriving DecidableEq

/-- src/notifications.py `send_whatsapp`: configuration check, normalize
the `whatsapp:` scheme on the recipient, then the Twilio call. -/
def send_whatsapp (env : NotifyEnv) (to_number message : String) :
    Except String WaSend :=
  if env.twilioConfigured = false then
    .error "WhatsApp not configured. Please set TWILIO_ACCOUNT_SID and TWILIO_AUTH_TOKEN in your .env file."
  else
    let to_number :=
      if "whatsapp:".data.isPrefixOf to_number.data then to_number
      else "whatsapp:" ++ to_number
    if env.twilioOk then .ok { recipient := to_number, body := message }
    else .error env.twilioErr

/-- src/notifications.py `format_transcript_message`. -/
def format_transcript_message (transcript url language : String) : String :=
  "🎬 Instagram Video Transcript\n\n📺 Video: " ++ url ++ "\n🌍 Language: " ++
    language ++ "\n\n📝 Transcript:\n" ++ ⟨List.replicate 30 '-'⟩ ++ "\n" ++
    transcript ++ "\n" ++ ⟨List.replicate 30 '-'⟩ ++
    "\n\nGenerated by Instagram Transcriber\n"

/-- src/notifications.py `format_transcript_email`: subject and body. -/
def format_transcript_email (transcript url language : String) (line_count : Nat) :
    String × String :=
  ("🎬 Your Instagram Transcript (" ++ toString line_count ++ " lines)",
   format_transcript_message transcript url language)

/-- Spec-side (for claim C6): "keeping only the digits of the phone
number, truncating to the last 10 digits". -/
def lastTenDigitsSpec (phone : String) : List Char :=
  let d := phone.data.filter Char.isDigit
  if d.length > 10 then d.drop (d.length - 10) else d

/-! ## Delivery handlers (src/app.py /transcript/<id> and /send/<id>) -/

/-- `Transcript.query.filter_by(id=transcript_id, user_id=current_user.id).first()`. -/
def findRow (db : List TranscriptRow) (uid tid : Nat) : Option TranscriptRow :=
  db.find? (fun r => r.id = tid && r.user_id = uid)

/-- The three delivery channels of `/send/<id>`. -/
inductive Channel where
  | email
  | sms
  | whatsapp
  deriving DecidableEq

/-- Setting one delivery flag on a row (`transcript.sent_… = True`). -/
def applyFlag (r : TranscriptRow) : Channel → TranscriptRow
  | .email => { r with sent_email := true }
  | .sms => { r with sent_sms := true }
  | .whatsapp => { r with sent_whatsapp := true }

/-- The committed database after mutating the row `.first()` returned:
the first row matching `(id, user_id)` gets the flag, every other row is
untouched. -/
def setFlag (db : List TranscriptRow) (uid tid : Nat) (ch : Channel) :
    List TranscriptRow :=
  match db with
  | [] => []
  | r :: rest =>
    if r.id = tid ∧ r.user_id = uid then applyFlag r ch :: rest
    else r :: setFlag rest uid tid ch

/-- src/app.py:381-400 `get_transcript`: owner-scoped lookup, 404 mask. -/
def get_transcript (u : UserRow) (db : List TranscriptRow) (tid : Nat) :
    ApiResult TranscriptRow :=
  match findRow db u.id tid with
  | none => .fail "Transcript not found" 404
  | some t => .ok t

/-- src/app.py:403-473 `send_transcript`: owner-scoped lookup, method
dispatch, channel delivery, flag update and commit.  Returns the response
together with the database after the request. -/
def send_transcript (u : UserRow) (db : List TranscriptRow) (tid : Nat)
    (method : String) (env : NotifyEnv) :
    ApiResult String × List TranscriptRow :=
  match findRow db u.id tid with
  | none => (.fail "Transcript not found" 404, db)
  | some t =>
    if method = "email" then
      if u.email = "" then (.fail "No email address on file" 400, db)
      else
        let sb := format_transcript_email t.transcript_text t.instagram_url
          t.language t.line_count
        match send_email env u.email sb.1 sb.2 with
        | .error e => (.fail e 500, db)
        | .ok _ =>
          (.ok ("Transcript sent to " ++ u.email), setFlag db u.id tid .email)
    else if method = "sms" then
      if u.phone = "" ∨ u.phone_carrier = "" then
        (.fail "Please set your phone number and carrier in your profile" 400, db)
      else
        let message := "🎬 Transcript ready! " ++ toString t.line_count ++
          " lines. Check your email for full text."
        match send_sms env u.phone u.phone_carrier message with
        | .error e => (.fail e 500, db)
        | .ok _ => (.ok ("SMS sent to " ++ u.phone), setFlag db u.id tid .sms)
    else if method = "whatsapp" then
      if u.whatsapp = "" then
        (.fail "Please set your WhatsApp number in your profile" 400, db)
      else
        let message := format_transcript_message t.transcript_text
          t.instagram_url t.language
        let message := pyTruncate1600 message
        match send_whatsapp env u.whatsapp message with
        | .error e => (.fail e 500, db)
        | .ok _ =>
          (.ok ("WhatsApp sent to " ++ u.whatsapp), setFlag db u.id tid .whatsapp)
    else (.fail "Invalid delivery method" 400, db)

/-! ## Audio extraction path computation (src/app.py extract_audio) -/

/-- Split a character list around its last `'.'`: `some (before, after)`
with `l = before ++ '.' :: after` and no `'.'` in `after`; `none` when
the list has no dot.  This is `rsplit('.', 1)` when a dot exists. -/
def splitLastDot : List Char → Option (List Char × List Char)
  | [] => none
  | c :: rest =>
    match splitLastDot rest with
    | some (b, a) => some (c :: b, a)
    | none => if c = '.' then some ([], rest) else none

/-- src/app.py:105 — `audio_path = video_path.rsplit('.', 1)[0] + '.wav'`
(when the path has no dot, `rsplit` returns the whole string at index 0). -/
def extract_audio_path (video_path : String) : String :=
  match splitLastDot video_path.data with
  | some (before, _) => ⟨before⟩ ++ ".wav"
  | none => video_path ++ ".wav"

/-- src/app.py:101 — `ext = video_path.rsplit('.', 1)[1].lower()`; `none`
models the IndexError raised when the path has no dot. -/
def extract_audio_ext (video_path : String) : Option String :=
  (splitLastDot video_path.data).map (fun ba => ⟨ba.2.map Char.toLower⟩)

/-! ## The /transcribe pipeline (src/app.py transcribe) -/

/-- src/app.py:62-65 `ALLOWED_EXTENSIONS` / `allowed_file`. -/
def ALLOWED_EXTENSIONS : List String := ["mp3", "wav", "mp4", "m4a", "mov", "webm"]

def allowed_file (filename : String) : Bool :=
  ('.' ∈ filename.data) &&
    (match splitLastDot filename.data with
     | some ba => decide ((⟨ba.2.map Char.toLower⟩ : String) ∈ ALLOWED_EXTENSIONS)
     | none => false)

/-- How the request supplies its media: a multipart upload carrying this
filename (possibly empty), or a URL field (already stripped; empty when
missing). -/
inductive RequestSource where
  | upload (filename : String)
  | urlReq (url : String)
  deriving DecidableEq

/-- Outcomes of every external call one `/transcribe` request makes.
`downloadResult` is yt-dlp (the path it produced, or the message of the
exception `download_video` raised); `ffmpegFound`/`ffmpegExitOk` the
transcoder; `whisperResult` the model; `dbCommitOk` the insert+commit
(`newRowId` the fresh primary key); `rmtreeOk` whether
`shutil.rmtree(temp_dir)` succeeds. -/
structure PipelineEnv where
  source : RequestSource
  downloadResult : Except String String
  ffmpegFound : Bool
  ffmpegExitOk : Bool
  ffmpegStderr : String
  whisperResult : Except String TranscriptionResult
  dbCommitOk : Bool
  dbErr : String
  newRowId : Nat
  rmtreeOk : Bool

/-- src/app.py:98-139 `extract_audio` as one request observes it: the
IndexError on a dotless path, the missing-binary error, the transcoder
failure, or the computed output path. -/
def extract_audio_model (env : PipelineEnv) (video_path : String) :
    Except String String :=
  match extract_audio_ext video_path with
  | none => .error "list index out of range"
  | some _ =>
    let audio_path := extract_audio_path video_path
    if env.ffmpegFound = false then
      .error "FFmpeg binary not found in system PATH. Please install FFmpeg."
    else if env.ffmpegExitOk = false then
      .error ("Failed to extract audio: " ++ env.ffmpegStderr)
    else .ok audio_path

/-- The `{success: true}` payload of `/transcribe`. -/
structure TranscribeOk where
  transcript_id : Nat
  transcript : String
  language : String
  line_count : Nat
  url : String
  deriving DecidableEq

/-- What the inner `try` of the route body produces: an explicit
`return jsonify(...)` or an exception propagating to the outer handler. -/
inductive InnerOutcome where
  | ret (r : ApiResult TranscribeOk)
  | exc (msg : String)
  deriving DecidableEq

/-- src/app.py:337-369 — the tail of the inner `try` once acquisition
produced `(url, video_path)`: normalization, transcription, formatting,
the empty-transcript rejection, and persistence.  The second component is
the list of Transcript rows the request commits. -/
def afterAcquire (uid : Nat) (env : PipelineEnv) (url video_path : String) :
    InnerOutcome × List TranscriptRow :=
  match extract_audio_model env video_path with
  | .error e => (.exc e, [])
  | .ok _audio_path =>
    match env.whisperResult with
    | .error e => (.exc e, [])
    | .ok result =>
      let transcript := format_transcript result
      if transcript = "" then
        (.ret (.fail "No speech detected in the video." 400), [])
      else
        let language := result.language.getD "unknown"
        let line_count := (pySplit transcript).length
        if env.dbCommitOk then
          (.ret (.ok { transcript_id := env.newRowId, transcript := transcript,
                       language := language, line_count := line_count, url := url }),
           [{ id := env.newRowId, user_id := uid, instagram_url := url,
              transcript_text := transcript, language := language,
              line_count := line_count }])
        else (.exc env.dbErr, [])

/-- src/app.py:308-369 — the inner `try` body of `/transcribe`:
upload/URL acquisition with its validation returns, then `afterAcquire`. -/
def innerBody (uid : Nat) (env : PipelineEnv) :
    InnerOutcome × List TranscriptRow :=
  match env.source with
  | .upload filename =>
    if filename = "" then (.ret (.fail "No file selected" 400), [])
    else if allowed_file filename then
      afterAcquire uid env ("File: " ++ filename) filename
    else
      (.ret (.fail "Invalid file type. Allowed: mp3, wav, mp4, m4a, mov" 400), [])
  | .urlReq u =>
    if u = "" then
      (.ret (.fail "Please provide a Video URL or upload a file" 400), [])
    else
      match env.downloadResult with
      | .error e => (.exc e, [])
      | .ok p => afterAcquire uid env u p

/-- Everything one `/transcribe` request leaves behind: the HTTP response,
the committed Transcript rows, and what became of the scratch directory. -/
structure PipelineTrace where
  response : ApiResult TranscribeOk
  persisted : List TranscriptRow
  rmtreeAttempted : Bool
  dirRemoved : Bool
  deriving DecidableEq

/-- src/app.py:298-378 `transcribe`: the inner body, the unconditional
`finally` (whose own `try/except pass` swallows a failing
`shutil.rmtree`), and the outer `except Exception` that turns a
propagating exception into `{success: false, error: str(e)}, 500`. -/
def transcribe (uid : Nat) (env : PipelineEnv) : PipelineTrace :=
  let inner := innerBody uid env
  let response :=
    match inner.1 with
    | .ret r => r
    | .exc m => .fail m 500
  { response := response, persisted := inner.2,
    rmtreeAttempted := true, dirRemoved := env.rmtreeOk }

def InnerOutcome.isOk : InnerOutcome → Bool
  | .ret r => r.isOk
  | .exc _ => false

/-! ## Concrete sample inputs used by witnesses and counterexamples -/

/-- A notification environment in which SMTP and Twilio are configured
and both transactions succeed. -/
def notifyOkEnv : NotifyEnv :=
  { smtpConfigured := true, smtpOk := true, smtpErr := "",
    twilioConfigured := true, twilioOk := true, twilioErr := "" }

/-- A pipeline run whose external stages all succeed but whose
transcription result has no segments and empty text. -/
def pipeEnvNoSpeech : PipelineEnv :=
  { source := .urlReq "https://example.com/v",
    downloadResult := .ok "dl/ab12cd34.mp4",
    ffmpegFound := true, ffmpegExitOk := true, ffmpegStderr := "",
    whisperResult := .ok { segments := [], text := "", language := none },
    dbCommitOk := true, dbErr := "", newRowId := 1, rmtreeOk := true }

/-- A fully successful pipeline run transcribing one segment. -/
def pipeEnvHello : PipelineEnv :=
  { pipeEnvNoSpeech with
    whisperResult := .ok { segments := [" Hello "], text := "Hello",
                           language := some "en" } }

/-- A pipeline run whose download step raises. -/
def pipeEnvDownloadFail : PipelineEnv :=
  { pipeEnvNoSpeech with downloadResult := .error "Download failed. Error: boom..." }

/-- A sample logged-in user with every contact field filled in. -/
def sampleUser : UserRow :=
  { id := 7, email := "a@b.example", phone := "+91 98765 43210",
    phone_carrier := "jio", whatsapp := "+919876543210" }

/-- A sample transcript row owned by `sampleUser`. -/
def sampleRow : TranscriptRow :=
  { id := 3, user_id := 7, instagram_url := "https://example.com/v",
    transcript_text := "Hello", language := "en", line_count := 1 }

/-- A second logged-in user, who owns none of `sampleRow`. -/
def otherUser : UserRow :=
  { id := 8, email := "other@b.example", phone := "", phone_carrier := "",
    whatsapp := "" }

/-- A two-segment transcription result with newline-free segment texts. -/
def twoSegResult : TranscriptionResult :=
  { segments := [" Hello ", "World"], text := "", language := none }

/-- The transcription result produced inside `pipeEnvHello`. -/
def helloResult : TranscriptionResult :=
  { segments := [" Hello "], text := "Hello", language := some "en" }

/-- The row `pipeEnvHello` persists. -/
def helloRow : TranscriptRow :=
  { id := 1, user_id := 7, instagram_url := "https://example.com/v",
    transcript_text := "Hello", language := "en", line_count := 1 }

/-- The no-segment result of claim C2's sentence-fallback example. -/
def helloHowGreat : TranscriptionResult :=
  { segments := [], text := "Hello. How are you? Great!", language := none }

/-! ## Helper lemmas -/

theorem splitNl_no_nl (l : List Char) (h : '\n' ∉ l) : splitNl l = [l] := by
  induction l with
  | nil => rfl
  | cons c rest ih =>
    have hc : ¬ c = '\n' := fun hcc => h (by simp [hcc])
    have hr : '\n' ∉ rest := fun hm => h (List.mem_cons_of_mem c hm)
    simp [splitNl, ih hr, hc]

theorem splitNl_append (a rest : List Char) (h : '\n' ∉ a) :
    splitNl (a ++ '\n' :: rest) = a :: splitNl rest := by
  induction a with
  | nil => simp [splitNl]
  | cons c a ih =>
    have hc : ¬ c = '\n' := fun hcc => h (by simp [hcc])
    have ha : '\n' ∉ a := fun hm => h (List.mem_cons_of_mem c hm)
    simp [splitNl, ih ha, hc]

theorem not_nl_of_mem_splitNl (l : List Char) :
    ∀ x ∈ splitNl l, '\n' ∉ x := by
  induction l with
  | nil =>
    intro x hx
    simp [splitNl] at hx
    simp [hx]
  | cons c rest ih =>
    intro x hx
    by_cases hc : c = '\n'
    · subst hc
      simp [splitNl] at hx
      rcases hx with h1 | h2
      · simp [h1]
      · exact ih x h2
    · simp [splitNl, hc] at hx
      cases hsr : splitNl rest with
      | nil =>
        rw [hsr] at hx; simp at hx; subst hx
        simp only [List.mem_singleton]
        exact fun hcc => hc hcc.symm
      | cons y ys =>
        rw [hsr] at hx
        simp at hx
        rcases hx with h1 | h2
        · subst h1
          intro hm
          rcases List.mem_cons.mp hm with h | h
          · exact hc h.symm
          · exact ih y (by rw [hsr]; exact List.mem_cons_self y ys) h
        · exact ih x (by rw [hsr]; exact List.mem_cons_of_mem y h2)

theorem mem_of_mem_stripList {c : Char} {l : List Char}
    (h : c ∈ stripList l) : c ∈ l := by
  unfold stripList at h
  rw [List.mem_reverse] at h
  have h1 := (List.dropWhile_sublist isPySpace).subset h
  rw [List.mem_reverse] at h1
  exact (List.dropWhile_sublist isPySpace).subset h1

theorem not_nl_pyStrip (s : String) (h : '\n' ∉ s.data) :
    '\n' ∉ (pyStrip s).data :=
  fun hm => h (mem_of_mem_stripList hm)

theorem pySplit_pyJoin (lines : List String) (hne : lines ≠ [])
    (h : ∀ x ∈ lines, '\n' ∉ x.data) :
    pySplit (pyJoin "\n" lines) = lines := by
  induction lines with
  | nil => cases hne rfl
  | cons x xs ih =>
    cases xs with
    | nil =>
      have hx : '\n' ∉ x.data := h x (List.mem_cons_self _ _)
      show pySplit x = [x]
      simp [pySplit, splitNl_no_nl x.data hx]
    | cons y ys =>
      have hx : '\n' ∉ x.data := h x (List.mem_cons_self _ _)
      have hrest : ∀ z ∈ y :: ys, '\n' ∉ z.data :=
        fun z hz => h z (List.mem_cons_of_mem x hz)
      have ihr := ih (by simp) hrest
      have hdata : (pyJoin "\n" (x :: y :: ys)).data =
          x.data ++ '\n' :: (pyJoin "\n" (y :: ys)).data := by
        show (x ++ "\n" ++ pyJoin "\n" (y :: ys)).data = _
        rw [String.data_append, String.data_append]
        simp
      unfold pySplit
      rw [hdata, splitNl_append x.data _ hx]
      simp only [List.map_cons]
      rw [show (⟨x.data⟩ : String) = x from rfl]
      rw [show (splitNl (pyJoin "\n" (y :: ys)).data).map (fun l => (⟨l⟩ : String)) =
        pySplit (pyJoin "\n" (y :: ys)) from rfl]
      rw [ihr]

theorem sentenceFallback_no_nl (text : String) :
    ∀ x ∈ sentenceFallback text, '\n' ∉ x.data := by
  intro x hx
  unfold sentenceFallback at hx
  rw [List.mem_filter] at hx
  rcases List.mem_map.mp hx.1 with ⟨y, hy, hxy⟩
  rcases List.mem_map.mp hy with ⟨piece, hpiece, hyp⟩
  subst hxy
  subst hyp
  exact not_nl_pyStrip _ (not_nl_of_mem_splitNl _ piece hpiece)

theorem segLines_no_nl (r : TranscriptionResult)
    (hseg : ∀ s ∈ r.segments, '\n' ∉ s.data) :
    ∀ x ∈ segLines r, '\n' ∉ x.data := by
  intro x hx
  unfold segLines at hx
  rw [List.mem_filter] at hx
  rcases List.mem_map.mp hx.1 with ⟨s, hs, hxs⟩
  subst hxs
  exact not_nl_pyStrip s (hseg s hs)

-- C9 amended

theorem afterAcquire_persisted (uid : Nat) (env : PipelineEnv) (url vp : String)
    (res : TranscriptionResult) (row : TranscriptRow)
    (hw : env.whisperResult = .ok res)
    (hp : (afterAcquire uid env url vp).2 = [row]) :
    row.transcript_text = format_transcript res ∧
    row.line_count = (pySplit (format_transcript res)).length := by
  unfold afterAcquire at hp
  cases hex : extract_audio_model env vp with
  | error e => rw [hex] at hp; simp at hp
  | ok ap =>
    rw [hex, hw] at hp
    simp only at hp
    by_cases hne : format_transcript res = ""
    · rw [if_pos hne] at hp; simp at hp
    · rw [if_neg hne] at hp
      by_cases hdb : env.dbCommitOk = true
      · rw [if_pos hdb] at hp
        simp at hp
        rw [← hp]
        exact ⟨rfl, rfl⟩
      · rw [if_neg hdb] at hp; simp at hp

theorem innerBody_persisted (uid : Nat) (env : PipelineEnv)
    (res : TranscriptionResult) (row : TranscriptRow)
    (hw : env.whisperResult = .ok res)
    (hp : (innerBody uid env).2 = [row]) :
    row.transcript_text = format_transcript res ∧
    row.line_count = (pySplit (format_transcript res)).length := by
  unfold innerBody at hp
  cases hsrc : env.source with
  | upload filename =>
    rw [hsrc] at hp
    simp only [] at hp
    by_cases h1 : filename = ""
    · simp [h1] at hp
    · rw [if_neg h1] at hp
      by_cases h2 : allowed_file filename = true
      · rw [if_pos h2] at hp
        exact afterAcquire_persisted uid env _ _ res row hw hp
      · simp [h2] at hp
  | urlReq u =>
    rw [hsrc] at hp
    simp only [] at hp
    by_cases h1 : u = ""
    · simp [h1] at hp
    · rw [if_neg h1] at hp
      cases hdl : env.downloadResult with
      | error e => rw [hdl] at hp; simp at hp
      | ok p =>
        rw [hdl] at hp
        exact afterAcquire_persisted uid env _ _ res row hw hp

theorem transcribe_isOk_eq (uid : Nat) (env : PipelineEnv) :
    (transcribe uid env).response.isOk = (innerBody uid env).1.isOk := by
  simp only [transcribe]
  cases h : (innerBody uid env).1 with
  | ret r => cases r <;> simp [h, InnerOutcome.isOk, ApiResult.isOk]
  | exc m => simp [h, InnerOutcome.isOk, ApiResult.isOk]

theorem afterAcquire_ok_cases (uid : Nat) (env : PipelineEnv) (url vp : String) :
    ((afterAcquire uid env url vp).1.isOk = true ∧
      (afterAcquire uid env url vp).2.length = 1) ∨
    ((afterAcquire uid env url vp).1.isOk = false ∧
      (afterAcquire uid env url vp).2 = []) := by
  unfold afterAcquire
  cases hex : extract_audio_model env vp with
  | error e => right; exact ⟨rfl, rfl⟩
  | ok ap =>
    cases hw : env.whisperResult with
    | error e => right; exact ⟨rfl, rfl⟩
    | ok res =>
      simp only []
      by_cases hne : format_transcript res = ""
      · rw [if_pos hne]; right; exact ⟨rfl, rfl⟩
      · rw [if_neg hne]
        by_cases hdb : env.dbCommitOk = true
        · rw [if_pos hdb]; left; exact ⟨rfl, rfl⟩
        · rw [if_neg hdb]; right; exact ⟨rfl, rfl⟩

theorem innerBody_ok_cases (uid : Nat) (env : PipelineEnv) :
    ((innerBody uid env).1.isOk = true ∧ (innerBody uid env).2.length = 1) ∨
    ((innerBody uid env).1.isOk = false ∧ (innerBody uid env).2 = []) := by
  unfold innerBody
  cases hsrc : env.source with
  | upload filename =>
    simp only []
    by_cases h1 : filename = ""
    · rw [if_pos h1]; right; exact ⟨rfl, rfl⟩
    · rw [if_neg h1]
      by_cases h2 : allowed_file filename = true
      · rw [if_pos h2]; exact afterAcquire_ok_cases uid env _ _
      · rw [if_neg h2]; right; exact ⟨rfl, rfl⟩
  | urlReq u =>
    simp only []
    by_cases h1 : u = ""
    · rw [if_pos h1]; right; exact ⟨rfl, rfl⟩
    · rw [if_neg h1]
      cases hdl : env.downloadResult with
      | error e => right; exact ⟨rfl, rfl⟩
      | ok p => exact afterAcquire_ok_cases uid env _ _

theorem extract_error_of_no_ffmpeg (env : PipelineEnv) (vp : String)
    (hff : env.ffmpegFound = false) :
    ∃ e, extract_audio_model env vp = .error e := by
  unfold extract_audio_model
  cases hext : extract_audio_ext vp with
  | none => exact ⟨_, rfl⟩
  | some x =>
    simp only [hff]
    exact ⟨_, rfl⟩

theorem afterAcquire_exc_of_extract_error (uid : Nat) (env : PipelineEnv)
    (url vp e : String) (h : extract_audio_model env vp = .error e) :
    (afterAcquire uid env url vp).1 = .exc e := by
  unfold afterAcquire
  rw [h]

theorem afterAcquire_isOk_false_of_whisper_error (uid : Nat) (env : PipelineEnv)
    (url vp e : String) (hw : env.whisperResult = .error e) :
    (afterAcquire uid env url vp).1.isOk = false := by
  unfold afterAcquire
  cases hex : extract_audio_model env vp with
  | error e2 => rfl
  | ok ap => rw [hw]; rfl

theorem afterAcquire_isOk_false_of_db_fail (uid : Nat) (env : PipelineEnv)
    (url vp : String) (hdb : env.dbCommitOk = false) :
    (afterAcquire uid env url vp).1.isOk = false := by
  unfold afterAcquire
  cases hex : extract_audio_model env vp with
  | error e2 => rfl
  | ok ap =>
    cases hw : env.whisperResult with
    | error e => rfl
    | ok res =>
      simp only []
      by_cases hne : format_transcript res = ""
      · rw [if_pos hne]; rfl
      · rw [if_neg hne, hdb]; rfl

theorem innerBody_isOk_false_lift (uid : Nat) (env : PipelineEnv)
    (h : ∀ url vp, (afterAcquire uid env url vp).1.isOk = false) :
    (innerBody uid env).1.isOk = false := by
  unfold innerBody
  cases hsrc : env.source with
  | upload filename =>
    simp only []
    by_cases h1 : filename = ""
    · rw [if_pos h1]; rfl
    · rw [if_neg h1]
      by_cases h2 : allowed_file filename = true
      · rw [if_pos h2]; exact h _ _
      · rw [if_neg h2]; rfl
  | urlReq u =>
    simp only []
    by_cases h1 : u = ""
    · rw [if_pos h1]; rfl
    · rw [if_neg h1]
      cases hdl : env.downloadResult with
      | error e => rfl
      | ok p => exact h _ _

theorem afterAcquire_ok_transcript (uid : Nat) (env : PipelineEnv)
    (url vp : String) (payload : TranscribeOk)
    (h : (afterAcquire uid env url vp).1 = .ret (.ok payload)) :
    payload.transcript ≠ "" := by
  unfold afterAcquire at h
  cases hex : extract_audio_model env vp with
  | error e => rw [hex] at h; simp at h
  | ok ap =>
    rw [hex] at h
    cases hw : env.whisperResult with
    | error e => rw [hw] at h; simp at h
    | ok res =>
      rw [hw] at h
      simp only [] at h
      by_cases hne : format_transcript res = ""
      · rw [if_pos hne] at h; simp at h
      · rw [if_neg hne] at h
        by_cases hdb : env.dbCommitOk = true
        · rw [if_pos hdb] at h
          simp at h
          rw [← h]
          exact hne
        · rw [if_neg hdb] at h; simp at h

theorem transcribe_ok_inner (uid : Nat) (env : PipelineEnv) (payload : TranscribeOk)
    (h : (transcribe uid env).response = .ok payload) :
    (innerBody uid env).1 = .ret (.ok payload) := by
  have h2 : (match (innerBody uid env).1 with
      | .ret r => r
      | .exc m => ApiResult.fail m 500) = ApiResult.ok payload := h
  cases hi : (innerBody uid env).1 with
  | ret r => rw [hi] at h2; simp only [] at h2; rw [h2]
  | exc m => rw [hi] at h2; simp at h2

theorem innerBody_ok_transcript (uid : Nat) (env : PipelineEnv)
    (payload : TranscribeOk)
    (h : (innerBody uid env).1 = .ret (.ok payload)) :
    payload.transcript ≠ "" := by
  unfold innerBody at h
  cases hsrc : env.source with
  | upload filename =>
    rw [hsrc] at h
    simp only [] at h
    by_cases h1 : filename = ""
    · rw [if_pos h1] at h; simp at h
    · rw [if_neg h1] at h
      by_cases h2 : allowed_file filename = true
      · rw [if_pos h2] at h
        exact afterAcquire_ok_transcript uid env _ _ payload h
      · rw [if_neg h2] at h; simp at h
  | urlReq u =>
    rw [hsrc] at h
    simp only [] at h
    by_cases h1 : u = ""
    · rw [if_pos h1] at h; simp at h
    · rw [if_neg h1] at h
      cases hdl : env.downloadResult with
      | error e => rw [hdl] at h; simp at h
      | ok p =>
        rw [hdl] at h
        exact afterAcquire_ok_transcript uid env _ _ payload h

theorem splitLastDot_eq_none (l : List Char) (h : '.' ∉ l) :
    splitLastDot l = none := by
  induction l with
  | nil => rfl
  | cons c rest ih =>
    have hc : ¬ c = '.' := fun hcc => h (by simp [hcc])
    have hr : '.' ∉ rest := fun hm => h (List.mem_cons_of_mem c hm)
    simp [splitLastDot, ih hr, hc]

theorem not_dot_of_splitLastDot_eq_none (l : List Char)
    (h : splitLastDot l = none) : '.' ∉ l := by
  induction l with
  | nil => simp
  | cons c rest ih =>
    unfold splitLastDot at h
    cases hr : splitLastDot rest with
    | some ba => rw [hr] at h; simp at h
    | none =>
      rw [hr] at h
      by_cases hc : c = '.'
      · rw [if_pos hc] at h; cases h
      · rw [if_neg hc] at h
        intro hm
        rcases List.mem_cons.mp hm with h1 | h1
        · exact hc h1.symm
        · exact ih hr h1

theorem splitLastDot_some (l : List Char) :
    ∀ b a, splitLastDot l = some (b, a) → l = b ++ '.' :: a ∧ '.' ∉ a := by
  induction l with
  | nil => intro b a h; simp [splitLastDot] at h
  | cons c rest ih =>
    intro b a h
    unfold splitLastDot at h
    cases hr : splitLastDot rest with
    | some ba =>
      rw [hr] at h
      simp only [Option.some.injEq] at h
      obtain ⟨h1, h2⟩ := ih ba.1 ba.2 (by rw [hr])
      have hb : c :: ba.1 = b := congrArg Prod.fst h
      have ha : ba.2 = a := congrArg Prod.snd h
      subst hb; subst ha
      exact ⟨by rw [List.cons_append, ← h1], h2⟩
    | none =>
      rw [hr] at h
      by_cases hc : c = '.'
      · rw [if_pos hc] at h
        simp only [Option.some.injEq, Prod.mk.injEq] at h
        obtain ⟨hb, ha⟩ := h
        subst hb; subst ha; subst hc
        exact ⟨rfl, not_dot_of_splitLastDot_eq_none rest hr⟩
      · rw [if_neg hc] at h
        cases h

theorem splitLastDot_concat (q w : List Char) (hw : '.' ∉ w) :
    splitLastDot (q ++ '.' :: w) = some (q, w) := by
  induction q with
  | nil =>
    show splitLastDot ('.' :: w) = some ([], w)
    unfold splitLastDot
    rw [splitLastDot_eq_none w hw]
    simp
  | cons c q ih =>
    show splitLastDot (c :: (q ++ '.' :: w)) = some (c :: q, w)
    unfold splitLastDot
    rw [ih]

theorem findRow_append (pre post : List TranscriptRow) (r : TranscriptRow)
    (uid : Nat)
    (hpre : ∀ x ∈ pre, ¬(x.id = r.id ∧ x.user_id = uid))
    (hr : r.user_id = uid) :
    findRow (pre ++ r :: post) uid r.id = some r := by
  induction pre with
  | nil =>
    unfold findRow
    rw [List.nil_append, List.find?_cons_of_pos]
    simp [hr]
  | cons x xs ih =>
    have hx := hpre x (List.mem_cons_self x xs)
    unfold findRow
    rw [List.cons_append, List.find?_cons_of_neg]
    · exact ih (fun y hy => hpre y (List.mem_cons_of_mem x hy))
    · simp only [Bool.and_eq_true, decide_eq_true_eq, not_and]
      intro h1 h2
      exact hx ⟨h1, h2⟩

theorem setFlag_append (pre post : List TranscriptRow) (r : TranscriptRow)
    (uid tid : Nat) (ch : Channel)
    (hpre : ∀ x ∈ pre, ¬(x.id = tid ∧ x.user_id = uid))
    (hid : r.id = tid) (huid : r.user_id = uid) :
    setFlag (pre ++ r :: post) uid tid ch = pre ++ applyFlag r ch :: post := by
  induction pre with
  | nil =>
    unfold setFlag
    rw [List.nil_append]
    simp [hid, huid]
  | cons x xs ih =>
    have hx := hpre x (List.mem_cons_self x xs)
    show setFlag (x :: (xs ++ r :: post)) uid tid ch = x :: (xs ++ applyFlag r ch :: post)
    unfold setFlag
    rw [if_neg hx]
    rw [ih (fun y hy => hpre y (List.mem_cons_of_mem x hy))]


/-! ## Claim theorems -/

/-- C1 (amended): the formatter is deterministic, and for every input
whose segment texts contain no newline character and whose output is
non-empty (the only case in which the pipeline computes a line count),
the output split on newline has exactly the claimed number of lines;
the pipeline persists `line_count` computed by splitting exactly the
formatter's output. -/
theorem formatting_line_count :
    (∀ r1 r2 : TranscriptionResult, r1 = r2 →
      format_transcript r1 = format_transcript r2) ∧
    (∀ r : TranscriptionResult, (∀ s ∈ r.segments, '\n' ∉ s.data) →
      format_transcript r ≠ "" →
      (pySplit (format_transcript r)).length = claimedLineCount r) ∧
    (∀ (uid : Nat) (env : PipelineEnv) (res : TranscriptionResult) (row : TranscriptRow),
      env.whisperResult = .ok res → (transcribe uid env).persisted = [row] →
      row.transcript_text = format_transcript res ∧
      row.line_count = (pySplit (format_transcript res)).length) := by
  refine ⟨fun r1 r2 h => by rw [h], ?_, ?_⟩
  · intro r hseg hne
    by_cases hs : segLines r = []
    · by_cases ht : r.text = ""
      · exact absurd (by simp [format_transcript, hs, ht, pyJoin]) hne
      · have hf : format_transcript r = pyJoin "\n" (sentenceFallback r.text) := by
          simp [format_transcript, hs, ht]
        have hfb : sentenceFallback r.text ≠ [] := by
          intro h0
          exact hne (by rw [hf, h0]; rfl)
        rw [hf, pySplit_pyJoin _ hfb (sentenceFallback_no_nl r.text)]
        simp [claimedLineCount, hs]
    · have hf : format_transcript r = pyJoin "\n" (segLines r) := by
        simp [format_transcript, hs]
      rw [hf, pySplit_pyJoin _ hs (segLines_no_nl r hseg)]
      simp [claimedLineCount, List.length_eq_zero, hs]
  · intro uid env res row hw hp
    exact innerBody_persisted uid env res row hw hp

/-- C1 counterexample: a single segment whose text contains an embedded
newline yields an output whose newline-split line count (2) differs from
the number of non-empty trimmed segments (1). -/
theorem formatting_line_count_counterexample :
    (pySplit (format_transcript { segments := ["a\nb"], text := "", language := none })).length ≠
      claimedLineCount { segments := ["a\nb"], text := "", language := none } := by
  decide

/-- C1 witness: the amended theorem applied to two concrete inputs —
a newline-free two-segment result, and the fully successful pipeline run
`pipeEnvHello`. -/
theorem formatting_line_count_witness :
    ((pySplit (format_transcript twoSegResult)).length =
      claimedLineCount twoSegResult) ∧
    (helloRow.transcript_text = format_transcript helloResult ∧
     helloRow.line_count = (pySplit (format_transcript helloResult)).length) :=
  ⟨formatting_line_count.2.1 _ (by decide) (by decide),
   formatting_line_count.2.2 7 pipeEnvHello _ _ rfl (by decide)⟩

/-- C2: the no-segment result with aggregate text
`"Hello. How are you? Great!"` formats to exactly the three lines
`"Hello."`, `"How are you?"`, `"Great!"` joined by newlines. -/
theorem sentence_fallback_three_lines :
    format_transcript helloHowGreat = "Hello.\nHow are you?\nGreat!" := by
  rfl

/-- C3: every `/transcribe` run attempts the scratch-directory removal
(the `finally` block), the directory is removed exactly when the removal
call succeeds, and whether the removal succeeds or fails changes neither
the response nor the persisted rows. -/
theorem scratch_cleanup_unconditional : ∀ (uid : Nat) (env : PipelineEnv),
    (transcribe uid env).rmtreeAttempted = true ∧
    (transcribe uid env).dirRemoved = env.rmtreeOk ∧
    (∀ b : Bool,
      (transcribe uid { env with rmtreeOk := b }).response =
        (transcribe uid env).response ∧
      (transcribe uid { env with rmtreeOk := b }).persisted =
        (transcribe uid env).persisted) := by
  intro uid env
  cases env
  exact ⟨rfl, rfl, fun b => ⟨rfl, rfl⟩⟩

/-- C4: a `/transcribe` run persists exactly one Transcript row when
its response is a success and none otherwise; a download failure
surfaces as the structured 500 failure with no persisted row; and a
missing transcoder, a transcription error, or a failing commit all
preclude a success response. -/
theorem failure_short_circuits_no_persist : ∀ (uid : Nat) (env : PipelineEnv),
    ((transcribe uid env).response.isOk = true ↔
      (transcribe uid env).persisted.length = 1) ∧
    ((transcribe uid env).response.isOk = false →
      (transcribe uid env).persisted = []) ∧
    (∀ u e, env.source = .urlReq u → u ≠ "" → env.downloadResult = .error e →
      (transcribe uid env).response = .fail e 500 ∧
      (transcribe uid env).persisted = []) ∧
    (env.ffmpegFound = false → (transcribe uid env).response.isOk = false) ∧
    (∀ e, env.whisperResult = .error e →
      (transcribe uid env).response.isOk = false) ∧
    (env.dbCommitOk = false → (transcribe uid env).response.isOk = false) := by
  intro uid env
  have hpers : (transcribe uid env).persisted = (innerBody uid env).2 := rfl
  refine ⟨?_, ?_, ?_, ?_, ?_, ?_⟩
  · rw [transcribe_isOk_eq, hpers]
    rcases innerBody_ok_cases uid env with ⟨h1, h2⟩ | ⟨h1, h2⟩
    · simp [h1, h2]
    · simp [h1, h2]
  · rw [transcribe_isOk_eq, hpers]
    rcases innerBody_ok_cases uid env with ⟨h1, h2⟩ | ⟨h1, h2⟩
    · simp [h1]
    · simp [h2]
  · intro u e hsrc hu hdl
    have hib : innerBody uid env = (.exc e, []) := by
      unfold innerBody
      rw [hsrc]
      simp only []
      rw [if_neg hu, hdl]
    constructor
    · show (match (innerBody uid env).1 with
        | .ret r => r
        | .exc m => ApiResult.fail m 500) = ApiResult.fail e 500
      rw [hib]
    · rw [hpers, hib]
  · intro hff
    rw [transcribe_isOk_eq]
    refine innerBody_isOk_false_lift uid env (fun url vp => ?_)
    obtain ⟨e, he⟩ := extract_error_of_no_ffmpeg env vp hff
    rw [afterAcquire_exc_of_extract_error uid env url vp e he]
    rfl
  · intro e hw
    rw [transcribe_isOk_eq]
    exact innerBody_isOk_false_lift uid env
      (fun url vp => afterAcquire_isOk_false_of_whisper_error uid env url vp e hw)
  · intro hdb
    rw [transcribe_isOk_eq]
    exact innerBody_isOk_false_lift uid env
      (fun url vp => afterAcquire_isOk_false_of_db_fail uid env url vp hdb)

/-- C4 witness: the download-failure case of the theorem applied to the
concrete environment `pipeEnvDownloadFail`. -/
theorem failure_short_circuits_witness :
    (transcribe 0 pipeEnvDownloadFail).response =
      .fail "Download failed. Error: boom..." 500 ∧
    (transcribe 0 pipeEnvDownloadFail).persisted = [] :=
  (failure_short_circuits_no_persist 0 pipeEnvDownloadFail).2.2.1
    "https://example.com/v" "Download failed. Error: boom..." rfl (by decide) rfl

/-- C5: the all-stages-succeed run whose transcription result has no
segments and empty text is rejected with the 400 "No speech detected"
failure and persists nothing; and no successful `/transcribe` response
ever carries an empty transcript. -/
theorem empty_speech_rejected :
    transcribe 7 pipeEnvNoSpeech =
      { response := .fail "No speech detected in the video." 400,
        persisted := [], rmtreeAttempted := true, dirRemoved := true } ∧
    (∀ (uid : Nat) (env : PipelineEnv) (payload : TranscribeOk),
      (transcribe uid env).response = .ok payload → payload.transcript ≠ "") := by
  constructor
  · rfl
  · intro uid env payload h
    exact innerBody_ok_transcript uid env payload (transcribe_ok_inner uid env payload h)

/-- C5 witness: the no-empty-success half applied to the concrete
successful run `pipeEnvHello`. -/
theorem empty_speech_rejected_witness :
    (transcribe 7 pipeEnvHello).response =
      .ok { transcript_id := 1, transcript := "Hello", language := "en",
            line_count := 1, url := "https://example.com/v" } ∧
    ("Hello" : String) ≠ "" :=
  ⟨by decide,
   empty_speech_rejected.2 7 pipeEnvHello
     { transcript_id := 1, transcript := "Hello", language := "en",
       line_count := 1, url := "https://example.com/v" } (by decide)⟩

/-- C6: `send_sms` rejects a carrier missing from the gateway table with
a NotificationError and performs no send; for a supported carrier (SMTP
working) it addresses the mail to the last ten digits of the phone
number followed by the carrier suffix; in particular
`"+91 98765 43210"` with carrier `"jio"` goes to
`"9876543210@jio.com"`. -/
theorem sms_gateway_address :
    ∀ (env : NotifyEnv) (p c m : String),
    (lookupGateway c = none →
      send_sms env p c m = .error ("Unsupported carrier: " ++ c ++
        ". Supported carriers: " ++
        pyJoin ", " (SMS_GATEWAYS.map (fun kv => kv.1)))) ∧
    (∀ suffix, lookupGateway c = some suffix → env.smtpConfigured = true →
      env.smtpOk = true →
      (send_sms env p c m).map EmailSend.recipient =
        .ok ((⟨lastTenDigitsSpec p⟩ : String) ++ suffix)) ∧
    (env.smtpConfigured = true → env.smtpOk = true →
      (send_sms env "+91 98765 43210" "jio" m).map EmailSend.recipient =
        .ok "9876543210@jio.com") := by
  intro env p c m
  obtain ⟨sc, so, se, tc, tk, te⟩ := env
  refine ⟨?_, ?_, ?_⟩
  · intro h
    unfold send_sms
    rw [if_pos h]
  · intro suffix hs hc hok
    simp only [] at hc hok
    subst hc; subst hok
    unfold send_sms
    rw [if_neg (by simp [hs]), hs]
    rfl
  · intro hc hok
    simp only [] at hc hok
    subst hc; subst hok
    rfl

/-- C6 witness: the theorem applied at the concrete jio number and at an
unsupported carrier. -/
theorem sms_gateway_address_witness :
    (send_sms notifyOkEnv "+91 98765 43210" "jio" "hi").map EmailSend.recipient =
      .ok "9876543210@jio.com" ∧
    send_sms notifyOkEnv "+91 98765 43210" "foo" "hi" =
      .error ("Unsupported carrier: " ++ "foo" ++ ". Supported carriers: " ++
        pyJoin ", " (SMS_GATEWAYS.map (fun kv => kv.1))) :=
  ⟨(sms_gateway_address notifyOkEnv "+91 98765 43210" "jio" "hi").2.2 rfl rfl,
   (sms_gateway_address notifyOkEnv "+91 98765 43210" "foo" "hi").1 (by decide)⟩

/-- C7: a successful `/send/<id>` delivery sets exactly the flag of its
channel on the addressed row and changes nothing else in the database;
sending by email and then by WhatsApp leaves `sent_email` and
`sent_whatsapp` true while `sent_sms` keeps its prior value; re-sending
on a channel whose flag is already set leaves the database unchanged. -/
theorem delivery_flags_independent :
    ∀ (u : UserRow) (pre post : List TranscriptRow) (r : TranscriptRow)
      (env : NotifyEnv),
    r.user_id = u.id →
    (∀ x ∈ pre, ¬(x.id = r.id ∧ x.user_id = u.id)) →
    u.email ≠ "" → u.whatsapp ≠ "" →
    env.smtpConfigured = true → env.smtpOk = true →
    env.twilioConfigured = true → env.twilioOk = true →
    (send_transcript u (pre ++ r :: post) r.id "email" env).2 =
      pre ++ { r with sent_email := true } :: post ∧
    (send_transcript u (pre ++ r :: post) r.id "email" env).1 =
      .ok ("Transcript sent to " ++ u.email) ∧
    (send_transcript u (pre ++ { r with sent_email := true } :: post)
        r.id "whatsapp" env).2 =
      pre ++ { r with sent_email := true, sent_whatsapp := true } :: post ∧
    (send_transcript u (pre ++ { r with sent_email := true } :: post)
        r.id "whatsapp" env).1 =
      .ok ("WhatsApp sent to " ++ u.whatsapp) ∧
    ({ r with sent_email := true, sent_whatsapp := true } : TranscriptRow).sent_sms
      = r.sent_sms ∧
    (send_transcript u
        (pre ++ { r with sent_email := true, sent_whatsapp := true } :: post)
        r.id "email" env).2 =
      pre ++ { r with sent_email := true, sent_whatsapp := true } :: post := by
  intro u pre post r env hr hpre hemail hwa hsc hsk htc htk
  obtain ⟨sc, so, se, tc, tk, te⟩ := env
  simp only [] at hsc hsk htc htk
  subst hsc; subst hsk; subst htc; subst htk
  have hfind1 : findRow (pre ++ r :: post) u.id r.id = some r :=
    findRow_append pre post r u.id hpre hr
  have hfind2 : findRow (pre ++ { r with sent_email := true } :: post) u.id r.id =
      some { r with sent_email := true } :=
    findRow_append pre post { r with sent_email := true } u.id hpre hr
  have hfind3 : findRow
      (pre ++ { r with sent_email := true, sent_whatsapp := true } :: post)
      u.id r.id = some { r with sent_email := true, sent_whatsapp := true } :=
    findRow_append pre post { r with sent_email := true, sent_whatsapp := true }
      u.id hpre hr
  have hset1 : setFlag (pre ++ r :: post) u.id r.id .email =
      pre ++ applyFlag r .email :: post :=
    setFlag_append pre post r u.id r.id .email hpre rfl hr
  have hset2 : setFlag (pre ++ { r with sent_email := true } :: post) u.id r.id
      .whatsapp = pre ++ applyFlag { r with sent_email := true } .whatsapp :: post :=
    setFlag_append pre post { r with sent_email := true } u.id r.id .whatsapp
      hpre rfl hr
  have hset3 : setFlag
      (pre ++ { r with sent_email := true, sent_whatsapp := true } :: post)
      u.id r.id .email =
      pre ++ applyFlag { r with sent_email := true, sent_whatsapp := true } .email
        :: post :=
    setFlag_append pre post { r with sent_email := true, sent_whatsapp := true }
      u.id r.id .email hpre rfl hr
  have e1 : send_transcript u (pre ++ r :: post) r.id "email" ⟨true, true, se, true, true, te⟩ =
      (.ok ("Transcript sent to " ++ u.email), setFlag (pre ++ r :: post) u.id r.id .email) := by
    unfold send_transcript
    rw [hfind1]
    simp only []
    rw [if_neg hemail]
    rfl
  have e2 : send_transcript u (pre ++ { r with sent_email := true } :: post) r.id
      "whatsapp" ⟨true, true, se, true, true, te⟩ =
      (.ok ("WhatsApp sent to " ++ u.whatsapp),
       setFlag (pre ++ { r with sent_email := true } :: post) u.id r.id .whatsapp) := by
    unfold send_transcript
    rw [hfind2]
    simp only []
    rw [if_neg hwa]
    rfl
  have e3 : send_transcript u
      (pre ++ { r with sent_email := true, sent_whatsapp := true } :: post) r.id
      "email" ⟨true, true, se, true, true, te⟩ =
      (.ok ("Transcript sent to " ++ u.email),
       setFlag (pre ++ { r with sent_email := true, sent_whatsapp := true } :: post)
         u.id r.id .email) := by
    unfold send_transcript
    rw [hfind3]
    simp only []
    rw [if_neg hemail]
    rfl
  refine ⟨?_, ?_, ?_, ?_, rfl, ?_⟩
  · rw [e1, hset1]; rfl
  · rw [e1]
  · rw [e2, hset2]; rfl
  · rw [e2]
  · rw [e3, hset3]; rfl

/-- C7 witness: the theorem applied to `sampleUser` and the
single-row database `[sampleRow]`. -/
theorem delivery_flags_independent_witness :
    (send_transcript sampleUser [sampleRow] sampleRow.id "email" notifyOkEnv).2 =
      [{ sampleRow with sent_email := true }] ∧
    (send_transcript sampleUser [{ sampleRow with sent_email := true }]
        sampleRow.id "whatsapp" notifyOkEnv).2 =
      [{ sampleRow with sent_email := true, sent_whatsapp := true }] ∧
    ({ sampleRow with sent_email := true, sent_whatsapp := true } :
        TranscriptRow).sent_sms = false ∧
    (send_transcript sampleUser
        [{ sampleRow with sent_email := true, sent_whatsapp := true }]
        sampleRow.id "email" notifyOkEnv).2 =
      [{ sampleRow with sent_email := true, sent_whatsapp := true }] := by
  have h := delivery_flags_independent sampleUser [] [] sampleRow notifyOkEnv
    rfl (by simp) (by decide) (by decide) rfl rfl rfl rfl
  exact ⟨h.1, h.2.2.1, h.2.2.2.2.1, h.2.2.2.2.2⟩

/-- C8: when every row carrying the requested id belongs to a different
user, both `/transcript/<id>` and `/send/<id>` answer the masked 404
"Transcript not found" and the database is left unchanged. -/
theorem ownership_isolation_404 :
    ∀ (u : UserRow) (db : List TranscriptRow) (tid : Nat) (method : String)
      (env : NotifyEnv),
    (∀ r ∈ db, r.id = tid → r.user_id ≠ u.id) →
    get_transcript u db tid = .fail "Transcript not found" 404 ∧
    send_transcript u db tid method env =
      (.fail "Transcript not found" 404, db) := by
  intro u db tid method env h
  have hfind : findRow db u.id tid = none := by
    unfold findRow
    rw [List.find?_eq_none]
    intro r hr
    simp only [Bool.and_eq_true, decide_eq_true_eq, not_and]
    intro h1 h2
    exact h r hr h1 h2
  constructor
  · unfold get_transcript; rw [hfind]
  · unfold send_transcript; rw [hfind]

/-- C8 witness: the theorem applied to `otherUser` requesting
`sampleUser`'s transcript. -/
theorem ownership_isolation_404_witness :
    get_transcript otherUser [sampleRow] 3 = .fail "Transcript not found" 404 ∧
    send_transcript otherUser [sampleRow] 3 "email" notifyOkEnv =
      (.fail "Transcript not found" 404, [sampleRow]) :=
  ownership_isolation_404 otherUser [sampleRow] 3 "email" notifyOkEnv (by decide)

/-- C9 (amended): the formatter uses the segment path whenever at least
one segment trims non-empty, and takes the sentence-splitting fallback
exactly when no segment trims non-empty (segments absent or all
whitespace) and the aggregate text is non-empty; when both are empty the
output is empty. -/
theorem fallback_path_condition (r : TranscriptionResult) :
    (segLines r ≠ [] → format_transcript r = segmentsOnlyFormat r) ∧
    (segLines r = [] ∧ r.text ≠ "" →
      format_transcript r = pyJoin "\n" (sentenceFallback r.text)) ∧
    (segLines r = [] ∧ r.text = "" → format_transcript r = "") := by
  refine ⟨?_, ?_, ?_⟩
  · intro h
    simp [format_transcript, segmentsOnlyFormat, h]
  · intro h
    simp [format_transcript, h.1, h.2]
  · intro h
    simp [format_transcript, h.1, h.2, pyJoin]

-- C9 counterexample

/-- C9 counterexample: a result with one (all-whitespace) segment and
non-empty aggregate text — the segments list is non-empty, yet the
output is not built from the segments' trimmed texts but from the
sentence fallback. -/
theorem fallback_path_condition_counterexample :
    ({ segments := [" "], text := "Hello. Hi", language := none } :
        TranscriptionResult).segments ≠ [] ∧
    format_transcript { segments := [" "], text := "Hello. Hi", language := none } ≠
      segmentsOnlyFormat { segments := [" "], text := "Hello. Hi", language := none } := by
  exact ⟨by decide, by decide⟩

-- C1 counterexample

/-- C9 witness: the segment-path half of the theorem applied to a
concrete one-segment result. -/
theorem fallback_path_condition_witness :
    format_transcript { segments := ["Hi"], text := "", language := none } =
      segmentsOnlyFormat { segments := ["Hi"], text := "", language := none } :=
  (fallback_path_condition { segments := ["Hi"], text := "", language := none }).1
    (by decide)

/-- C10: for every path containing a dot, `extract_audio` computes its
output as everything before the last dot followed by `".wav"`; hence a
path already ending in `".wav"` maps to itself, so ffmpeg is asked to
overwrite its own input. -/
theorem extract_audio_output_path :
    ∀ (p : String), '.' ∈ p.data →
    (∃ before after : List Char,
      p.data = before ++ '.' :: after ∧ '.' ∉ after ∧
      (extract_audio_path p).data = before ++ ".wav".data) ∧
    (∀ q : String, p = q ++ ".wav" → extract_audio_path p = p) := by
  intro p hdot
  constructor
  · cases hs : splitLastDot p.data with
    | none => exact absurd hdot (not_dot_of_splitLastDot_eq_none p.data hs)
    | some ba =>
      obtain ⟨b, a⟩ := ba
      obtain ⟨h1, h2⟩ := splitLastDot_some p.data b a hs
      refine ⟨b, a, h1, h2, ?_⟩
      unfold extract_audio_path
      rw [hs]
      rfl
  · intro q hq
    subst hq
    have hs : splitLastDot (q ++ ".wav").data = some (q.data, ['w', 'a', 'v']) := by
      rw [String.data_append]
      exact splitLastDot_concat q.data ['w', 'a', 'v'] (by decide)
    unfold extract_audio_path
    rw [hs]

/-- C10 witness: the theorem applied to the concrete path
`"video.wav"`, which maps to itself. -/
theorem extract_audio_output_path_witness :
    extract_audio_path "video.wav" = "video.wav" :=
  (extract_audio_output_path "video.wav" (by decide)).2 "video" (by decide)
